import Mathlib

/-!
# Attendance tracker: core state and persistence subsystem

Shallow embedding of the attendance-tracking core of `src/App.js`:
the profile/subject data model, percentage arithmetic, subject
add/delete/record-attendance mutations, CSV export, search filtering,
and the load/save persistence discipline, together with theorems
checking the specified properties against the embedded code.

Modelling conventions:
* JavaScript numbers are embedded as exact integers (`Int`) and exact
  rationals (`ℚ`); every numeric value arising in the program is an
  integer counter or a quotient of such counters.
* JavaScript string builtins `trim()`, `toLowerCase()` and
  `includes()` are embedded character-wise (`jsTrim`, `jsToLower`,
  `jsIncludes`); `toLowerCase` is modelled on the ASCII alphabet the
  program manipulates.
* The `JSON.stringify`/`JSON.parse` pair of the runtime is modelled as
  a value-faithful codec: storage holds the JSON *value* a stringified
  blob parses back to (`Json`), and a blob that does not parse is the
  distinguished `corrupt` fetch outcome.
* `updateAttendance` mutates a subject object shared between the old
  and the new `subjects` array (`[...subjects]` is a shallow copy), so
  for it the object graph is embedded explicitly: a heap of subject
  records and profiles holding heap addresses.
-/

/-- A tracked subject: `{ name, present, absent }` as created by
`handleAddSubject` in `src/App.js` and mutated by `updateAttendance`. -/
structure Subject where
  name : String
  present : Int
  absent : Int
deriving DecidableEq, Repr, Inhabited

/-- The root record `attendanceData = { name, subjects }` of `src/App.js`. -/
structure Profile where
  name : String
  subjects : List Subject
deriving DecidableEq, Repr, Inhabited

/-- The typed error taxonomy of the specification (§7). -/
inductive StoreErr where
  | validationError
  | indexError
  | persistenceError
  | exportError
deriving DecidableEq, Repr

/-- An untyped JavaScript runtime exception (not part of the typed
taxonomy): e.g. the `TypeError` thrown by reading a property of
`undefined`. -/
inductive JsFault where
  | typeError
deriving DecidableEq, Repr

/-! ## JavaScript string builtins -/

/-- Embedding of `s.toLowerCase()`: character-wise lowercasing. -/
def jsToLower (s : String) : String :=
  String.mk (s.data.map Char.toLower)

/-- Embedding of `s.trim()`: remove leading and trailing whitespace. -/
def jsTrim (s : String) : String :=
  String.mk (((s.data.dropWhile Char.isWhitespace).reverse.dropWhile Char.isWhitespace).reverse)

/-- Embedding of `s.includes(sub)`: `sub` occurs contiguously inside `s`. -/
def jsIncludes (s sub : String) : Bool :=
  decide (sub.data <:+: s.data)

/-! ## Percentage arithmetic -/

/-- Prints a count `n` of hundredths with exactly two digits after the
decimal point, as `Number.prototype.toFixed(2)` does for the value
`n / 100`: decimal integer part, a dot, then the tens and units digit
of `n % 100`. -/
def fmtHundredths (n : Nat) : String :=
  toString (n / 100) ++ "." ++ String.mk [Nat.digitChar (n / 10 % 10), Nat.digitChar (n % 10)]

/-- Embedding of `q.toFixed(2)` for a rational `q`: round `q * 100` to the nearest
integer — ties to the larger candidate, as ECMA-262 `toFixed`
prescribes — and print that many hundredths with two decimals. -/
def jsToFixed2 (q : ℚ) : String :=
  let n : Int := Rat.floor (q * 100 + 1 / 2)
  if n < 0 then "-" ++ fmtHundredths n.natAbs else fmtHundredths n.toNat

/-- Embedding of `calculatePercentage` from `src/App.js` (lines 80–85):
`total = present + absent`; `'0.00'` when `total === 0`, otherwise
`((present / total) * 100).toFixed(2)`. -/
def calculatePercentage (present absent : Int) : String :=
  let total := present + absent
  if total = 0 then "0.00"
  else jsToFixed2 ((present : ℚ) / (total : ℚ) * 100)

/-! ## Value-level store operations

`handleAddSubject`, `deleteSubject`, `exportToCSV` and
`filteredSubjects` build fresh objects and arrays (object spread,
`filter`, `map`), so plain value semantics embeds them faithfully. -/

/-- Embedding of `handleAddSubject` from `src/App.js` (lines 100–124), acting on the
current `attendanceData` and the entered `newSubjectName`.  Returns the
resulting state together with the surfaced error, if any: an empty
trimmed name or a case-insensitive duplicate is rejected by an `Alert`
and leaves the state untouched; otherwise the new subject is appended
with both counters zero. -/
def handleAddSubject (p : Profile) (newSubjectName : String) : Profile × Option StoreErr :=
  if jsTrim newSubjectName = "" then
    (p, some StoreErr.validationError)
  else if p.subjects.any (fun subject => jsToLower subject.name = jsToLower (jsTrim newSubjectName)) then
    (p, some StoreErr.validationError)
  else
    ({ p with subjects := p.subjects ++ [{ name := jsTrim newSubjectName, present := 0, absent := 0 }] },
      none)

/-- The confirmed branch of `deleteSubject` from `src/App.js`
(lines 147–152): `subjects.filter((_, i) => i !== index)` re-indexed
through `enum`, then the surrounding state spread. -/
def deleteSubject (p : Profile) (index : Nat) : Profile :=
  { p with subjects := (p.subjects.enum.filter (fun q => q.1 != index)).map Prod.snd }

/-- The CSV text production of `exportToCSV` from `src/App.js`
(lines 158–173): an empty subject list is rejected with an alert
(`ExportError`); otherwise the header line (with its trailing `\n`)
is concatenated with the subject rows joined by `\n`.  The file write
and share-sheet steps that consume the text are outside the core. -/
def exportToCSV (p : Profile) : Except StoreErr String :=
  if p.subjects.length = 0 then
    Except.error StoreErr.exportError
  else
    let headers := "Subject,Classes Attended,Classes Missed,Attendance Percentage\n"
    let rows := String.intercalate "\n" (p.subjects.map (fun subject =>
      subject.name ++ "," ++ toString subject.present ++ "," ++ toString subject.absent ++ ","
        ++ calculatePercentage subject.present subject.absent ++ "%"))
    Except.ok (headers ++ rows)

/-- Embedding of `filteredSubjects` from `src/App.js` (lines 189–191):
`subjects.filter(s => s.name.toLowerCase().includes(searchQuery.toLowerCase()))`. -/
def filteredSubjects (subjects : List Subject) (searchQuery : String) : List Subject :=
  subjects.filter (fun subject => jsIncludes (jsToLower subject.name) (jsToLower searchQuery))

/-! ## Persistence: load and save -/

/-- A JSON value, as produced by the runtime's `JSON.parse`. -/
inductive Json where
  | str (s : String)
  | num (n : Int)
  | bool (b : Bool)
  | null
  | arr (elems : List Json)
  | obj (fields : List (String × Json))

/-- The JSON value `JSON.stringify` produces for a subject record. -/
def subjectToJson (s : Subject) : Json :=
  Json.obj [("name", Json.str s.name), ("present", Json.num s.present), ("absent", Json.num s.absent)]

/-- The JSON value `JSON.stringify` produces for the `attendanceData`
record (key order `name`, `subjects`, as in the object literals of
`src/App.js`). -/
def profileToJson (p : Profile) : Json :=
  Json.obj [("name", Json.str p.name), ("subjects", Json.arr (p.subjects.map subjectToJson))]

/-- The possible outcomes of `AsyncStorage.getItem` followed by
`JSON.parse` in `loadData`: the read throws, no blob is stored, the
stored blob does not parse as JSON, or it parses to a value. -/
inductive FetchResult where
  | ioError
  | missing
  | corrupt
  | parsed (j : Json)

/-- What `loadData` from `src/App.js` (lines 35–50) leaves behind. -/
structure LoadOutcome where
  attendanceData : Json
  showNamePrompt : Bool
  errorAlerted : Bool

/-- Embedding of `loadData` from `src/App.js` (lines 35–50), acting on the current
state `current` (at startup, the initial `{ name: '', subjects: [] }`):
a parsed blob is installed verbatim by `setAttendanceData(JSON.parse(data))`;
a missing blob opens the name prompt; a thrown read or parse error is
caught, alerted, and leaves the state as it was. -/
def loadData (current : Json) (fetched : FetchResult) : LoadOutcome :=
  match fetched with
  | FetchResult.parsed j => ⟨j, false, false⟩
  | FetchResult.missing => ⟨current, true, false⟩
  | FetchResult.ioError => ⟨current, false, true⟩
  | FetchResult.corrupt => ⟨current, false, true⟩

/-- Embedding of `saveData` from `src/App.js` (lines 57–65) as seen by a subsequent
load: `AsyncStorage.setItem(STORAGE_KEY, JSON.stringify(newData))`
stores a blob that parses back to exactly the stringified JSON value. -/
def saveData (newData : Profile) : FetchResult :=
  FetchResult.parsed (profileToJson newData)

/-- The initial component state `{ name: '', subjects: [] }` of
`src/App.js` (lines 23–26): the uninitialized profile. -/
def initialData : Profile := { name := "", subjects := [] }

/-- Decoder written from the specification's serialization format
(§4.2/§6): a subject is an object `{name: string, present: number,
absent: number}`. -/
def subjectOfJson : Json → Option Subject
  | Json.obj [("name", Json.str n), ("present", Json.num p), ("absent", Json.num a)] =>
    some { name := n, present := p, absent := a }
  | _ => none

/-- Decoder for a list of serialized subjects (specification §4.2/§6). -/
def subjectsOfJson : List Json → Option (List Subject)
  | [] => some []
  | j :: rest =>
    match subjectOfJson j, subjectsOfJson rest with
    | some s, some l => some (s :: l)
    | _, _ => none

/-- Decoder written from the specification's serialization format
(§4.2/§6): the persisted record is `{name: string, subjects: [...]}`. -/
def profileOfJson : Json → Option Profile
  | Json.obj [("name", Json.str n), ("subjects", Json.arr js)] =>
    match subjectsOfJson js with
    | some l => some { name := n, subjects := l }
    | none => none
  | _ => none

/-- A profile that is valid in the sense of the specification's data
model (§3): non-empty trimmed name and non-negative integer counters. -/
def validProfile (p : Profile) : Prop :=
  jsTrim p.name ≠ "" ∧ ∀ s ∈ p.subjects, 0 ≤ s.present ∧ 0 ≤ s.absent

/-- Checker for the specification's data-model invariants I1–I4 (§3)
on a decoded profile: non-empty name, pairwise-distinct subject names
under trim-and-lowercase normalization, trimmed stored names, and
non-negative counters. -/
def profileInvariantsB (p : Profile) : Bool :=
  decide (p.name ≠ "") &&
  decide (List.Nodup (p.subjects.map (fun s => jsToLower (jsTrim s.name)))) &&
  p.subjects.all (fun s => decide (jsTrim s.name = s.name)) &&
  p.subjects.all (fun s => decide (0 ≤ s.present) && decide (0 ≤ s.absent))

/-- The specification's data-model invariants read off a stored JSON
blob: the blob must have the serialized-profile shape and its decoded
profile must satisfy `profileInvariantsB`. -/
def jsonInvariantsB (j : Json) : Bool :=
  match profileOfJson j with
  | some p => profileInvariantsB p
  | none => false

/-- A well-formed JSON blob that violates the data-model invariants:
empty profile name, an untrimmed subject name, a negative counter, and
two names equal after trim-and-lowercase normalization. -/
def badBlob : Json :=
  profileToJson { name := "", subjects := [⟨" math", -3, 0⟩, ⟨"Math", 1, 2⟩] }

/-! ## `updateAttendance` with the object graph made explicit

`updateAttendance` (lines 126–136) does
`const newSubjects = [...attendanceData.subjects]` — a shallow copy:
the array is fresh but its entries are the *same* subject objects —
and then `newSubjects[index].present += 1`, an in-place mutation of an
object also reachable from the old `attendanceData`.  `saveData`'s
failure branch then runs `setAttendanceData(attendanceData)` with the
closure's pre-mutation reference.  To capture this, subjects live in an
explicit heap and a profile holds heap addresses. -/

/-- A profile value as the component holds it: a name and an array of
references to subject objects. -/
structure ProfileRef where
  name : String
  subjects : List Nat
deriving DecidableEq, Repr

/-- The store's state around one `updateAttendance` call: the subject
object heap, the live `attendanceData` reference value, and the
snapshot that is currently durable in `AsyncStorage`. -/
structure StoreSt where
  heap : List Subject
  live : ProfileRef
  durable : Option Profile
deriving DecidableEq, Repr

/-- Read a profile reference through the heap: the by-value snapshot
`JSON.stringify` would serialize and the screen renders. -/
def derefProfile (heap : List Subject) (p : ProfileRef) : Profile :=
  { name := p.name, subjects := p.subjects.map (fun a => heap.getD a default) }

/-- What one `updateAttendance` call leaves behind: the store state,
the typed error surfaced by an `Alert`, if any, and the untyped runtime
exception escaping the handler, if any. -/
structure UpdateResult where
  state : StoreSt
  surfaced : Option StoreErr
  fault : Option JsFault
deriving DecidableEq, Repr

/-- Embedding of `updateAttendance` from `src/App.js` (lines 126–136) together with
the `saveData` it triggers (lines 57–65), `saveOk` telling whether
`AsyncStorage.setItem` succeeds.  Out of bounds, `newSubjects[index]`
is `undefined` and reading `.present` throws an untyped `TypeError`
before any state change.  In bounds, the shared subject object is
mutated in place; on save failure the catch block alerts
(`PersistenceError`) and re-installs the closure's `attendanceData` —
the same addresses, whose pointee was already mutated. -/
def updateAttendance (st : StoreSt) (index : Int) (isPresent : Bool) (saveOk : Bool) : UpdateResult :=
  match (if 0 ≤ index then st.live.subjects.get? index.toNat else none) with
  | none => ⟨st, none, some JsFault.typeError⟩
  | some addr =>
    let heap' := st.heap.set addr
      (let s := st.heap.getD addr default
       if isPresent then { s with present := s.present + 1 } else { s with absent := s.absent + 1 })
    let newData : ProfileRef := { name := st.live.name, subjects := st.live.subjects }
    if saveOk then
      ⟨⟨heap', newData, some (derefProfile heap' newData)⟩, none, none⟩
    else
      ⟨⟨heap', st.live, st.durable⟩, some StoreErr.persistenceError, none⟩

/-- The store as it stands before the `recordAttendance` of the C1/C2
scenarios: one durably saved profile `A` with the single subject
`Math`, no session recorded yet. -/
def demoStore : StoreSt :=
  { heap := [⟨"Math", 0, 0⟩]
    live := { name := "A", subjects := [0] }
    durable := some { name := "A", subjects := [⟨"Math", 0, 0⟩] } }

/-! ## Helper lemmas -/

/-- The function `Rat.floor` agrees with the floor of the archimedean order. -/
theorem ratFloor_eq (q : ℚ) : Rat.floor q = ⌊q⌋ := by
  rw [Rat.floor_def', Rat.floor_def]

/-- Digits printed by `Nat.digitChar` below ten are decimal digits. -/
theorem digitChar_isDigit (m : Nat) (h : m < 10) : (Nat.digitChar m).isDigit = true := by
  interval_cases m <;> decide

/-- With a non-zero total, `calculatePercentage` takes the `toFixed` branch. -/
theorem calculatePercentage_of_ne (present absent : Int) (h : present + absent ≠ 0) :
    calculatePercentage present absent =
      jsToFixed2 ((present : ℚ) / ((present + absent : Int) : ℚ) * 100) := by
  simp [calculatePercentage, h]

/-- Applied to a non-negative rational, `toFixed(2)` prints the rounded count of
hundredths. -/
theorem jsToFixed2_nonneg (q : ℚ) (h : 0 ≤ q) :
    jsToFixed2 q = fmtHundredths (⌊q * 100 + 1 / 2⌋).toNat := by
  unfold jsToFixed2
  rw [ratFloor_eq, if_neg]
  simp only [not_lt]
  exact Int.le_floor.mpr (by positivity)

/-- The call `calculatePercentage(3, 1)` yields the string `75.00`. -/
theorem calculatePercentage_three_one : calculatePercentage 3 1 = "75.00" := by
  rw [calculatePercentage_of_ne 3 1 (by decide), jsToFixed2_nonneg _ (by norm_num)]
  have h : ⌊((3 : Int) : ℚ) / (((3 + 1 : Int) : Int) : ℚ) * 100 * 100 + 1 / 2⌋ = (7500 : Int) := by
    norm_num
  rw [h]
  rfl

/-- The call `calculatePercentage(2, 1)` yields the string `66.67`. -/
theorem calculatePercentage_two_one : calculatePercentage 2 1 = "66.67" := by
  rw [calculatePercentage_of_ne 2 1 (by decide), jsToFixed2_nonneg _ (by norm_num)]
  have h : ⌊((2 : Int) : ℚ) / (((2 + 1 : Int) : Int) : ℚ) * 100 * 100 + 1 / 2⌋ = (6667 : Int) := by
    norm_num [Int.floor_eq_iff]
  rw [h]
  rfl

/-- C3: `computeSubjectPercentage` returns `"0.00"` for an empty total
and otherwise the percentage `(present/(present+absent))*100` rounded
to two decimal places as a fixed-point string; `(3,1)` yields `"75.00"`,
`(2,1)` yields `"66.67"`, and the result always denotes a value in
`[0.00, 100.00]` printed with exactly two decimal digits. -/
theorem calculatePercentage_spec :
    calculatePercentage 0 0 = "0.00" ∧
    calculatePercentage 3 1 = "75.00" ∧
    calculatePercentage 2 1 = "66.67" ∧
    ∀ present absent : ℕ,
      (present + absent = 0 → calculatePercentage present absent = "0.00") ∧
      (present + absent ≠ 0 →
        ∃ n : ℕ, n ≤ 10000 ∧
          calculatePercentage present absent = fmtHundredths n ∧
          |(n : ℚ) / 100 - (present : ℚ) / ((present : ℚ) + (absent : ℚ)) * 100| ≤ 1 / 200 ∧
          fmtHundredths n = toString (n / 100) ++ "." ++
            String.mk [Nat.digitChar (n / 10 % 10), Nat.digitChar (n % 10)] ∧
          (Nat.digitChar (n / 10 % 10)).isDigit = true ∧
          (Nat.digitChar (n % 10)).isDigit = true) := by
  refine ⟨rfl, calculatePercentage_three_one, calculatePercentage_two_one, ?_⟩
  intro present absent
  constructor
  · intro h
    have hz : ((present : Int) + (absent : Int)) = 0 := by exact_mod_cast h
    simp [calculatePercentage, hz]
  · intro h
    have hzi : ((present : Int) + (absent : Int)) ≠ 0 := by exact_mod_cast h
    have htpos : (0 : ℚ) < (present : ℚ) + (absent : ℚ) := by
      have : 0 < present + absent := Nat.pos_of_ne_zero h
      exact_mod_cast this
    set q : ℚ := (present : ℚ) / ((present : ℚ) + (absent : ℚ)) * 100 with hqdef
    have hq0 : 0 ≤ q := by positivity
    have hq100 : q ≤ 100 := by
      have h1 : (present : ℚ) ≤ (present : ℚ) + (absent : ℚ) := by
        have : (0 : ℚ) ≤ (absent : ℚ) := by positivity
        linarith
      have h2 : (present : ℚ) / ((present : ℚ) + (absent : ℚ)) ≤ 1 := (div_le_one htpos).mpr h1
      calc q ≤ 1 * 100 := by rw [hqdef]; nlinarith
        _ = 100 := by norm_num
    set m : Int := ⌊q * 100 + 1 / 2⌋ with hmdef
    have hm0 : 0 ≤ m := Int.le_floor.mpr (by push_cast; nlinarith)
    have hm1 : m ≤ 10000 := by
      have hlt : q * 100 + 1 / 2 < ((10001 : Int) : ℚ) := by push_cast; nlinarith
      have := Int.floor_lt.mpr hlt
      omega
    have hcast : (((present : Int)) : ℚ) / ((((present : Int) + (absent : Int)) : Int) : ℚ) * 100 = q := by
      rw [hqdef]; push_cast; ring
    have hmain : calculatePercentage (present : Int) (absent : Int) = fmtHundredths m.toNat := by
      rw [calculatePercentage_of_ne _ _ hzi, hcast, jsToFixed2_nonneg q hq0, hmdef]
    refine ⟨m.toNat, by omega, hmain, ?_, rfl,
      digitChar_isDigit _ (Nat.mod_lt _ (by norm_num)),
      digitChar_isDigit _ (Nat.mod_lt _ (by norm_num))⟩
    have hup : (m : ℚ) ≤ q * 100 + 1 / 2 := Int.floor_le _
    have hdown : q * 100 + 1 / 2 < (m : ℚ) + 1 := Int.lt_floor_add_one _
    have htn : ((m.toNat : ℚ)) = (m : ℚ) := by exact_mod_cast Int.toNat_of_nonneg hm0
    rw [htn, abs_le]
    constructor <;> linarith

/-- Witness for C3: the general branch of `calculatePercentage_spec`
instantiated at `present = 2`, `absent = 1`. -/
theorem calculatePercentage_spec_witness :
    ∃ n : ℕ, n ≤ 10000 ∧
      calculatePercentage ((2 : ℕ) : Int) ((1 : ℕ) : Int) = fmtHundredths n ∧
      |(n : ℚ) / 100 - ((2 : ℕ) : ℚ) / (((2 : ℕ) : ℚ) + ((1 : ℕ) : ℚ)) * 100| ≤ 1 / 200 ∧
      fmtHundredths n = toString (n / 100) ++ "." ++
        String.mk [Nat.digitChar (n / 10 % 10), Nat.digitChar (n % 10)] ∧
      (Nat.digitChar (n / 10 % 10)).isDigit = true ∧
      (Nat.digitChar (n % 10)).isDigit = true :=
  (calculatePercentage_spec.2.2.2 2 1).2 (by decide)

/-- C4: on a profile whose stored subject names are trimmed (data-model
invariant), `addSubject` rejects with a `ValidationError` — leaving the
subjects untouched — exactly when the trimmed name is empty or matches
an existing name case-insensitively after trimming, and otherwise
appends one zero-counter subject at the end, preserving the rest. -/
theorem handleAddSubject_spec (p : Profile) (newSubjectName : String)
    (hinv : ∀ s ∈ p.subjects, jsTrim s.name = s.name) :
    ((jsTrim newSubjectName = "" ∨
        ∃ s ∈ p.subjects, jsToLower (jsTrim s.name) = jsToLower (jsTrim newSubjectName)) →
      handleAddSubject p newSubjectName = (p, some StoreErr.validationError)) ∧
    ((jsTrim newSubjectName ≠ "" ∧
        ∀ s ∈ p.subjects, jsToLower (jsTrim s.name) ≠ jsToLower (jsTrim newSubjectName)) →
      handleAddSubject p newSubjectName =
        ({ name := p.name,
           subjects := p.subjects ++ [{ name := jsTrim newSubjectName, present := 0, absent := 0 }] },
          none)) := by
  constructor
  · intro h
    by_cases he : jsTrim newSubjectName = ""
    · simp [handleAddSubject, he]
    · rcases h with h | ⟨s, hs, hdup⟩
      · exact absurd h he
      · have hany : (p.subjects.any fun subject =>
            jsToLower subject.name = jsToLower (jsTrim newSubjectName)) = true := by
          rw [List.any_eq_true]
          refine ⟨s, hs, ?_⟩
          rw [hinv s hs] at hdup
          simpa using hdup
        simp [handleAddSubject, he, hany]
  · rintro ⟨he, hall⟩
    have hany : (p.subjects.any fun subject =>
        jsToLower subject.name = jsToLower (jsTrim newSubjectName)) = false := by
      rw [List.any_eq_false]
      intro s hs
      have := hall s hs
      rw [hinv s hs] at this
      simpa using this
    simp [handleAddSubject, he, hany]

/-- Witness for C4: adding `" MATH "` to a profile that already holds
`Math` is rejected and the state is unchanged. -/
theorem handleAddSubject_spec_witness :
    handleAddSubject { name := "A", subjects := [⟨"Math", 3, 1⟩] } " MATH " =
      ({ name := "A", subjects := [⟨"Math", 3, 1⟩] }, some StoreErr.validationError) :=
  (handleAddSubject_spec { name := "A", subjects := [⟨"Math", 3, 1⟩] } " MATH "
    (by decide)).1 (Or.inr (by decide))

/-- C5: `exportCSV` fails with `ExportError` on an empty subject list,
and otherwise produces exactly the header line
`Subject,Classes Attended,Classes Missed,Attendance Percentage`
followed by one `name,present,absent,percentage%` line per subject in
profile order, all joined by single newlines; for the single subject
`Math` with 3 present and 1 absent the text is the header, a newline,
and `Math,3,1,75.00%`. -/
theorem exportToCSV_spec (p : Profile) :
    (p.subjects = [] → exportToCSV p = Except.error StoreErr.exportError) ∧
    (p.subjects ≠ [] →
      exportToCSV p = Except.ok
        ("Subject,Classes Attended,Classes Missed,Attendance Percentage" ++ "\n" ++
          String.intercalate "\n" (p.subjects.map (fun s =>
            s.name ++ "," ++ toString s.present ++ "," ++ toString s.absent ++ ","
              ++ calculatePercentage s.present s.absent ++ "%")))) ∧
    exportToCSV { name := "x", subjects := [⟨"Math", 3, 1⟩] } =
      Except.ok "Subject,Classes Attended,Classes Missed,Attendance Percentage\nMath,3,1,75.00%" := by
  refine ⟨?_, ?_, ?_⟩
  · intro h
    simp [exportToCSV, h]
  · intro h
    have hl : p.subjects.length ≠ 0 := fun hh => h (List.length_eq_zero.mp hh)
    simp only [exportToCSV, if_neg hl]
    rfl
  · have h75 := calculatePercentage_three_one
    simp only [exportToCSV, List.length_cons, List.length_nil, List.map_cons, List.map_nil,
      String.intercalate, h75]
    rfl

/-- Witness for C5: the non-empty branch of `exportToCSV_spec` applied
to a one-subject profile. -/
theorem exportToCSV_spec_witness :
    exportToCSV { name := "x", subjects := [⟨"Math", 3, 1⟩] } =
      Except.ok
        ("Subject,Classes Attended,Classes Missed,Attendance Percentage" ++ "\n" ++
          String.intercalate "\n" (([⟨"Math", 3, 1⟩] : List Subject).map (fun s =>
            s.name ++ "," ++ toString s.present ++ "," ++ toString s.absent ++ ","
              ++ calculatePercentage s.present s.absent ++ "%"))) :=
  (exportToCSV_spec { name := "x", subjects := [⟨"Math", 3, 1⟩] }).2.1 (by decide)

/-- Indices in `enumFrom n l` all differ from any `m < n`, so the
delete filter keeps every element to the right of the deleted slot. -/
theorem enumFrom_filter_ne_of_lt {α : Type} (l : List α) :
    ∀ (n m : Nat), m < n →
      (l.enumFrom n).filter (fun q => q.1 != m) = l.enumFrom n := by
  induction l with
  | nil => intro n m _; rfl
  | cons a t ih =>
    intro n m h
    show List.filter _ ((n, a) :: t.enumFrom (n + 1)) = _
    rw [List.filter_cons]
    have hb : ((n, a).1 != m) = true := by
      simpa using Nat.ne_of_gt h
    rw [if_pos hb, ih (n + 1) m (Nat.lt_succ_of_lt h)]
    rfl

/-- Dropping the indices of `enumFrom` recovers the original list. -/
theorem enumFrom_map_snd_self {α : Type} (l : List α) :
    ∀ n : Nat, (l.enumFrom n).map Prod.snd = l := by
  induction l with
  | nil => intro n; rfl
  | cons a t ih =>
    intro n
    show (n, a).2 :: (t.enumFrom (n + 1)).map Prod.snd = a :: t
    rw [ih (n + 1)]

/-- The delete filter over `enumFrom n`, looking for relative index
`i`, removes exactly the element `i` slots in and keeps everything
else in order. -/
theorem enumFrom_filter_ne_map_snd {α : Type} (l : List α) :
    ∀ (n i : Nat),
      ((l.enumFrom n).filter (fun q => q.1 != n + i)).map Prod.snd =
        l.take i ++ l.drop (i + 1) := by
  induction l with
  | nil => intro n i; simp
  | cons a t ih =>
    intro n i
    show (List.filter _ ((n, a) :: t.enumFrom (n + 1))).map Prod.snd = _
    rw [List.filter_cons]
    cases i with
    | zero =>
      have hb : ((n, a).1 != n + 0) = false := by simp
      rw [if_neg (by simp [hb]), enumFrom_filter_ne_of_lt t (n + 1) (n + 0) (by omega),
        enumFrom_map_snd_self t (n + 1)]
      simp
    | succ j =>
      have hb : ((n, a).1 != n + (j + 1)) = true := by simp
      rw [if_pos hb]
      have hshift : (fun q : Nat × α => q.1 != n + (j + 1)) =
          (fun q : Nat × α => q.1 != (n + 1) + j) := by
        funext q
        have : n + (j + 1) = (n + 1) + j := by omega
        rw [this]
      rw [List.map_cons, hshift, ih (n + 1) j]
      rfl

/-- C8: for an in-bounds index, `deleteSubject` removes exactly the
element at that index — the result is the prefix before it followed by
the suffix after it — shortens the list by one, and leaves the profile
name unchanged. -/
theorem deleteSubject_spec (p : Profile) (index : Nat) (h : index < p.subjects.length) :
    (deleteSubject p index).name = p.name ∧
    (deleteSubject p index).subjects = p.subjects.take index ++ p.subjects.drop (index + 1) ∧
    (deleteSubject p index).subjects.length = p.subjects.length - 1 := by
  have hmain : (deleteSubject p index).subjects =
      p.subjects.take index ++ p.subjects.drop (index + 1) := by
    show ((p.subjects.enum.filter (fun q => q.1 != index)).map Prod.snd) = _
    have := enumFrom_filter_ne_map_snd p.subjects 0 index
    simpa [List.enum] using this
  refine ⟨rfl, hmain, ?_⟩
  rw [hmain]
  rw [List.length_append, List.length_take, List.length_drop]
  omega

/-- Witness for C8: deleting index 1 from a three-subject profile. -/
theorem deleteSubject_spec_witness :
    (deleteSubject { name := "A", subjects := [⟨"M", 1, 0⟩, ⟨"P", 2, 1⟩, ⟨"C", 0, 3⟩] } 1).name = "A" ∧
    (deleteSubject { name := "A", subjects := [⟨"M", 1, 0⟩, ⟨"P", 2, 1⟩, ⟨"C", 0, 3⟩] } 1).subjects =
      ([⟨"M", 1, 0⟩, ⟨"P", 2, 1⟩, ⟨"C", 0, 3⟩] : List Subject).take 1 ++
        ([⟨"M", 1, 0⟩, ⟨"P", 2, 1⟩, ⟨"C", 0, 3⟩] : List Subject).drop 2 ∧
    (deleteSubject { name := "A", subjects := [⟨"M", 1, 0⟩, ⟨"P", 2, 1⟩, ⟨"C", 0, 3⟩] } 1).subjects.length =
      ([⟨"M", 1, 0⟩, ⟨"P", 2, 1⟩, ⟨"C", 0, 3⟩] : List Subject).length - 1 :=
  deleteSubject_spec { name := "A", subjects := [⟨"M", 1, 0⟩, ⟨"P", 2, 1⟩, ⟨"C", 0, 3⟩] } 1 (by decide)

/-- C9: `filterSubjects` returns exactly the subsequence of subjects
whose lowercased name contains the lowercased query as a contiguous
substring, in original order (a sublist); the empty query keeps every
subject, and `"Math"` is kept for the query `"ma"`.  The function is
pure and total: it never fails and builds a fresh list. -/
theorem filteredSubjects_spec :
    ∀ (subjects : List Subject) (searchQuery : String),
      (filteredSubjects subjects searchQuery).Sublist subjects ∧
      (∀ s, s ∈ filteredSubjects subjects searchQuery ↔
        s ∈ subjects ∧ (jsToLower searchQuery).data <:+: (jsToLower s.name).data) ∧
      filteredSubjects subjects "" = subjects ∧
      filteredSubjects [⟨"Math", 0, 0⟩] "ma" = [⟨"Math", 0, 0⟩] := by
  intro subjects searchQuery
  refine ⟨List.filter_sublist _, ?_, ?_, by decide⟩
  · intro s
    rw [filteredSubjects, List.mem_filter]
    constructor
    · rintro ⟨hm, hb⟩
      exact ⟨hm, by simpa [jsIncludes] using hb⟩
    · rintro ⟨hm, hi⟩
      exact ⟨hm, by simpa [jsIncludes] using hi⟩
  · rw [filteredSubjects, List.filter_eq_self]
    intro s _
    simp only [jsIncludes, decide_eq_true_eq]
    exact List.nil_infix

/-- C6: starting from the initial `{ name: '', subjects: [] }` state, a
missing snapshot leaves the uninitialized profile in place and opens
the name prompt; a failed read or a non-parsing blob surfaces an error
alert (`PersistenceError`) and falls back to the same uninitialized
state; and that state decodes to the profile with empty name and empty
subject list. -/
theorem loadData_startup_spec :
    loadData (profileToJson initialData) FetchResult.missing =
      ⟨profileToJson initialData, true, false⟩ ∧
    loadData (profileToJson initialData) FetchResult.ioError =
      ⟨profileToJson initialData, false, true⟩ ∧
    loadData (profileToJson initialData) FetchResult.corrupt =
      ⟨profileToJson initialData, false, true⟩ ∧
    profileOfJson (profileToJson initialData) = some initialData :=
  ⟨rfl, rfl, rfl, rfl⟩

/-- Encoding a subject list and decoding it recovers the list. -/
theorem subjectsOfJson_map (l : List Subject) :
    subjectsOfJson (l.map subjectToJson) = some l := by
  induction l with
  | nil => rfl
  | cons s t ih =>
    show subjectsOfJson (subjectToJson s :: t.map subjectToJson) = _
    simp [subjectsOfJson, subjectOfJson, subjectToJson, ih]

/-- C7: for a valid profile, loading right after saving installs a
state that denotes exactly the saved profile — every field round-trips
(field-for-field equality of the decoded profile). -/
theorem load_after_save_roundtrip (p : Profile) (_hp : validProfile p) :
    profileOfJson (loadData (profileToJson initialData) (saveData p)).attendanceData =
      some p := by
  show profileOfJson (profileToJson p) = some p
  simp [profileOfJson, profileToJson, subjectsOfJson_map]

/-- Witness for C7: the round-trip at a concrete valid profile. -/
theorem load_after_save_roundtrip_witness :
    profileOfJson (loadData (profileToJson initialData)
        (saveData { name := "Alice", subjects := [⟨"Math", 3, 1⟩] })).attendanceData =
      some { name := "Alice", subjects := [⟨"Math", 3, 1⟩] } :=
  load_after_save_roundtrip { name := "Alice", subjects := [⟨"Math", 3, 1⟩] }
    ⟨by decide, by decide⟩

/-- C10: `loadData` installs any successfully parsed blob verbatim as
the live state — no shape or invariant validation — so the data-model
invariants hold after a load exactly when the blob already satisfied
them; `badBlob` (empty name, untrimmed duplicate names, a negative
counter) is installed as-is and violates them. -/
theorem loadData_installs_verbatim :
    (∀ j : Json,
      loadData (profileToJson initialData) (FetchResult.parsed j) = ⟨j, false, false⟩) ∧
    (∀ j : Json,
      jsonInvariantsB (loadData (profileToJson initialData)
        (FetchResult.parsed j)).attendanceData = jsonInvariantsB j) ∧
    loadData (profileToJson initialData) (FetchResult.parsed badBlob) =
      ⟨badBlob, false, false⟩ ∧
    jsonInvariantsB badBlob = false :=
  ⟨fun _ => rfl, fun _ => rfl, rfl, by rfl⟩

/-- C1 (defect evaluation): on a failed save after `recordAttendance`,
the catch block re-installs the closure's `attendanceData`, but the
shallow-copied array shares the mutated subject object, so the visible
state keeps `present = 1` while the durable snapshot still holds
`present = 0`: the durable counters are *not* restored.  The
`PersistenceError` alert is surfaced. -/
theorem updateAttendance_failed_save_keeps_increment :
    (updateAttendance demoStore 0 true false).surfaced = some StoreErr.persistenceError ∧
    (updateAttendance demoStore 0 true false).state.durable =
      some { name := "A", subjects := [⟨"Math", 0, 0⟩] } ∧
    derefProfile (updateAttendance demoStore 0 true false).state.heap
        (updateAttendance demoStore 0 true false).state.live =
      { name := "A", subjects := [⟨"Math", 1, 0⟩] } ∧
    derefProfile (updateAttendance demoStore 0 true false).state.heap
        (updateAttendance demoStore 0 true false).state.live ≠
      { name := "A", subjects := [⟨"Math", 0, 0⟩] } :=
  ⟨rfl, rfl, rfl, by decide⟩

/-- C2 (amended): for every out-of-bounds index — negative or at least
the subject count — `recordAttendance` leaves the whole store state
unchanged but throws an untyped `TypeError` (reading `.present` of
`undefined`); no typed `IndexError` is surfaced. -/
theorem updateAttendance_oob (st : StoreSt) (index : Int) (isPresent saveOk : Bool)
    (h : index < 0 ∨ (st.live.subjects.length : Int) ≤ index) :
    updateAttendance st index isPresent saveOk = ⟨st, none, some JsFault.typeError⟩ := by
  unfold updateAttendance
  have hnone : (if 0 ≤ index then st.live.subjects.get? index.toNat else none) = none := by
    rcases h with h | h
    · rw [if_neg (by omega)]
    · rw [if_pos (by omega)]
      exact List.get?_len_le (by omega)
  rw [hnone]

/-- Witness for the amended C2: a negative index on the demo store. -/
theorem updateAttendance_oob_witness :
    updateAttendance demoStore (-1) false true = ⟨demoStore, none, some JsFault.typeError⟩ :=
  updateAttendance_oob demoStore (-1) false true (Or.inl (by decide))

/-- Counterexample to C2 as stated: at index 5 of the one-subject demo
store, `recordAttendance` does not fail with a typed `IndexError` — it
raises the untyped `TypeError` fault (the state is indeed unchanged). -/
theorem updateAttendance_oob_untyped_fault :
    updateAttendance demoStore 5 true true = ⟨demoStore, none, some JsFault.typeError⟩ ∧
    (updateAttendance demoStore 5 true true).surfaced ≠ some StoreErr.indexError ∧
    (updateAttendance demoStore 5 true true).fault ≠ none :=
  ⟨by decide, by decide, by decide⟩
